import Mathlib

/-
  Verification of the dongle-bridge transaction router and its supporting
  transport layers, as a shallow embedding in Lean 4.

  Sources embedded:
  - src/app/include/msg.h            (MSG_MAX_LEN)
  - src/app/include/port.h           (enum port_id, port_send)
  - src/app/src/core/app_core.c      (stubbed application core)
  - src/app/src/hal/usb/usb_cdc_mock.c (mock USB transport)

  The transaction router itself (app_logic.c / transaction.h) is not present
  in the repository: only its header (src/app/include/app_logic.h) and its
  test suite (src/app/tests/app_logic/src/test_app_logic.c) exist.  The
  router definitions below are therefore modelled from the specification
  (spec.md §3, §4.3, §7) and are marked as such in their doc comments.
-/

namespace DongleBridge

/-- From src/app/include/msg.h: the define MSG_MAX_LEN is 238, the maximum
payload length of a bounded message. -/
def MSG_MAX_LEN : Nat := 238

/-- From src/app/include/port.h: the enum port_id with members PORT_USB and
PORT_BLE (future ports reserved). -/
inductive port_id where
  | PORT_USB
  | PORT_BLE
deriving DecidableEq, Repr

/-- Modelled from the spec: app_logic.c is absent from the repository, so
the total fixed two-port mapping of §4.3 (PRIMARY and SECONDARY swap) is
taken from the spec text for `other_port`. -/
def other_port : port_id → port_id
  | .PORT_USB => .PORT_BLE
  | .PORT_BLE => .PORT_USB

/-- Modelled from the spec: §3 Transaction Slot — `occupied` flag plus the
`initiator` port that is valid only when occupied, rendered as a sum. -/
inductive slot_state where
  | Idle
  | Pending (initiator : port_id)
deriving DecidableEq, Repr

/-- Modelled from the spec: the router slot table, one slot per initiating
port (§3), for the two-port system. -/
structure router_state where
  usb_slot : slot_state
  ble_slot : slot_state
deriving DecidableEq, Repr

/-- The slot keyed by a given initiating port. -/
def router_state.slot (s : router_state) : port_id → slot_state
  | .PORT_USB => s.usb_slot
  | .PORT_BLE => s.ble_slot

/-- Replace the slot keyed by a given initiating port. -/
def router_state.set_slot (s : router_state) : port_id → slot_state → router_state
  | .PORT_USB, v => { s with usb_slot := v }
  | .PORT_BLE, v => { s with ble_slot := v }

/-- Modelled from the spec: slots are created at router initialization, one
per registered port, unoccupied (§3). -/
def init_state : router_state := ⟨slot_state.Idle, slot_state.Idle⟩

/-- From src/app/include/ble_if.h and spec §7: the errors a transport send
can signal — not-connected, transport-busy, invalid-length. -/
inductive send_error where
  | not_connected
  | transport_busy
  | invalid_length
deriving DecidableEq, Repr

/-- Modelled from the spec: §7 error taxonomy as seen by the router's
caller — OversizeError for too-long inbound payloads, and a transport
SendError propagated verbatim. -/
inductive app_error where
  | OversizeError
  | SendError (e : send_error)
deriving DecidableEq, Repr

/-- The behaviour of the outbound transports: for each attempted
`port_send`, either success (none) or a transport error. -/
def send_env : Type := port_id → List Nat → Option send_error

/-- Modelled from the spec: the busy indication payload — a short, fixed,
non-empty payload distinct from normal traffic (§4.3); its exact bytes are
an open question of the spec (§9), only non-emptiness is relied on. -/
def busy_payload : List Nat := [0xB5]

/-- The observable outcome of one router entry point call: the new slot
table, the ordered list of `port_send` calls issued (destination port and
payload bytes), and the error, if any, reported to the caller. -/
structure step_result where
  state : router_state
  sends : List (port_id × List Nat)
  err : Option app_error
deriving DecidableEq, Repr

/-- Modelled from the spec: app_logic.c is absent from the repository;
`app_on_rx` (declared in src/app/include/app_logic.h) follows §4.3
transitions 1 and 2, with §7's oversize policy: an oversized inbound
payload is rejected before any state mutation and is neither forwarded nor
acknowledged, the oversize error being reported to the caller. -/
def app_on_rx (env : send_env) (s : router_state) (fromP : port_id)
    (data : List Nat) : step_result :=
  if MSG_MAX_LEN < data.length then
    { state := s, sends := [], err := some app_error.OversizeError }
  else
    match s.slot fromP with
    | .Idle =>
        { state := s.set_slot fromP (slot_state.Pending fromP)
          sends := [(other_port fromP, data)]
          err := (env (other_port fromP) data).map app_error.SendError }
    | .Pending _ =>
        { state := s
          sends := [(fromP, busy_payload)]
          err := (env fromP busy_payload).map app_error.SendError }

/-- Modelled from the spec: app_logic.c is absent from the repository;
`app_on_response` (declared in src/app/include/app_logic.h) follows §4.3
transitions 3 and 4: deliver the reply to the slot keyed by the other
port if Pending and free it, or drop an orphan response silently. -/
def app_on_response (env : send_env) (s : router_state) (fromP : port_id)
    (data : List Nat) : step_result :=
  match s.slot (other_port fromP) with
  | .Pending _ =>
      { state := s.set_slot (other_port fromP) slot_state.Idle
        sends := [(other_port fromP, data)]
        err := (env (other_port fromP) data).map app_error.SendError }
  | .Idle => { state := s, sends := [], err := none }

/-- An inbound event at one of the router's two entry points. -/
inductive router_event where
  | rx (p : port_id) (d : List Nat)
  | response (p : port_id) (d : List Nat)

/-- The slot-table effect of one inbound event. -/
def router_step (env : send_env) (s : router_state) : router_event → router_state
  | .rx p d => (app_on_rx env s p d).state
  | .response p d => (app_on_response env s p d).state

/-- The slot table reached from initialization by a list of inbound
events. -/
def router_run (env : send_env) (evs : List router_event) : router_state :=
  evs.foldl (router_step env) init_state

end DongleBridge

namespace DongleBridge

/-- From src/app/include/core/app_core.h: a generic transport link — a send
function with its context pointer, abstracted here to the context value
since the stubbed core never invokes it. -/
structure app_core_link where
  ctx : Nat
deriving DecidableEq, Repr

/-- From src/app/src/core/app_core.c: the core instance holding the two
transport links. -/
structure app_core where
  uplink : app_core_link
  downlink : app_core_link
deriving DecidableEq, Repr

/-- From src/app/src/core/app_core.c: `app_core_create` is a TODO stub that
ignores both links and returns NULL. -/
def app_core_create (uplink downlink : Option app_core_link) :
    Option app_core := none

/-- From src/app/src/core/app_core.c: `app_core_usb_rx` is a TODO stub: it
casts all parameters to void and performs no send and no state change.
The result is the (unchanged) core pointer and the list of link sends
issued, which is empty. -/
def app_core_usb_rx (p : Option app_core) (data : List Nat) :
    Option app_core × List (app_core_link × List Nat) := (p, [])

/-- From src/app/src/core/app_core.c: `app_core_ble_rx` is a TODO stub: it
casts all parameters to void and performs no send and no state change. -/
def app_core_ble_rx (p : Option app_core) (data : List Nat) :
    Option app_core × List (app_core_link × List Nat) := (p, [])

/-- From src/app/src/core/app_core.c: `app_core_tick` is a TODO stub: it
casts its parameter to void and performs no send and no state change. -/
def app_core_tick (p : Option app_core) :
    Option app_core × List (app_core_link × List Nat) := (p, [])

end DongleBridge

namespace DongleBridge

/-- From errno.h as used by src/app/src/hal/usb/usb_cdc_mock.c. -/
def EINVAL : Int := 22

/-- From errno.h as used by src/app/src/hal/usb/usb_cdc_mock.c. -/
def EBUSY : Int := 16

/-- From errno.h as used by src/app/src/hal/usb/usb_cdc_mock.c. -/
def ENODEV : Int := 19

/-- From errno.h as used by src/app/src/hal/usb/usb_cdc_mock.c. -/
def EMSGSIZE : Int := 90

/-- From src/app/src/hal/usb/usb_cdc_mock.c: struct usb_mock_stats. -/
structure usb_mock_stats where
  rx_bytes : Nat
  tx_bytes : Nat
  rx_callbacks : Nat
  tx_callbacks : Nat
  connection_changes : Nat
deriving DecidableEq, Repr

/-- From src/app/src/hal/usb/usb_cdc_mock.c: struct usb_mock_ctx.  The
registered callback structure is abstracted to two flags recording whether
the rx and tx_done callbacks are non-NULL; the callbacks themselves are
external code and are modelled only through their statistics effect (they
are assumed not to re-enter the mock, as in the repository's tests). -/
structure usb_mock_ctx where
  cb_rx : Bool
  cb_tx_done : Bool
  connected : Bool
  tx_in_progress : Bool
  loopback_enabled : Bool
  tx_buffer : List Nat
  tx_len : Nat
  inject_tx_failure : Bool
  stats : usb_mock_stats
deriving DecidableEq, Repr

/-- From src/app/src/hal/usb/usb_cdc_mock.c, usb_mock_send: validates the
arguments and context, simulates the transmission synchronously, and
returns 0 or a negative errno together with the updated context.  A NULL
data pointer is `none`; `len` bytes are copied from the buffer.  The value
-5 on the injected-failure path is -EIO. -/
def usb_mock_send (ctx : usb_mock_ctx) (data : Option (List Nat))
    (len : Nat) : Int × usb_mock_ctx :=
  match data with
  | none => (-EINVAL, ctx)
  | some d =>
    if len = 0 then (-EINVAL, ctx)
    else if ctx.tx_in_progress then (-EBUSY, ctx)
    else if !ctx.connected then (-ENODEV, ctx)
    else if 256 < len then (-EMSGSIZE, ctx)
    else if ctx.inject_tx_failure then (-5, { ctx with inject_tx_failure := false })
    else
      let stats1 := { ctx.stats with tx_bytes := ctx.stats.tx_bytes + len }
      let stats2 :=
        if ctx.loopback_enabled && ctx.cb_rx then
          { stats1 with rx_bytes := stats1.rx_bytes + len
                        rx_callbacks := stats1.rx_callbacks + 1 }
        else stats1
      let stats3 :=
        if ctx.cb_tx_done then
          { stats2 with tx_callbacks := stats2.tx_callbacks + 1 }
        else stats2
      (0, { ctx with tx_in_progress := false
                     tx_len := len
                     tx_buffer := d.take len
                     stats := stats3 })

/-- From src/app/src/hal/usb/usb_cdc_mock.c, usb_mock_is_ready: the mock
is ready when connected and no transmission is in progress. -/
def usb_mock_is_ready (ctx : usb_mock_ctx) : Bool :=
  ctx.connected && !ctx.tx_in_progress

end DongleBridge

namespace DongleBridge

/- ------------------------------------------------------------------ -/
/- Helper lemmas about the slot table.                                 -/
/- ------------------------------------------------------------------ -/

theorem slot_set_slot_self (s : router_state) (p : port_id) (v : slot_state) :
    (s.set_slot p v).slot p = v := by
  cases p <;> rfl

theorem slot_set_slot_ne (s : router_state) (p q : port_id) (v : slot_state)
    (h : q ≠ p) : (s.set_slot p v).slot q = s.slot q := by
  cases p <;> cases q <;> first | rfl | exact absurd rfl h

theorem other_port_ne (p : port_id) : other_port p ≠ p := by
  cases p <;> decide

/-- The per-direction key invariant of the slot table: a Pending slot
records its own key as initiator (spec §3, §4.3 transition 1). -/
def slot_inv (s : router_state) : Prop :=
  ∀ p i, s.slot p = slot_state.Pending i → i = p

theorem slot_inv_init : slot_inv init_state := by
  intro p i h
  cases p <;> simp [init_state, router_state.slot] at h

theorem slot_inv_set_pending (s : router_state) (p : port_id)
    (hs : slot_inv s) : slot_inv (s.set_slot p (slot_state.Pending p)) := by
  intro q i hq
  by_cases hqp : q = p
  · subst hqp
    rw [slot_set_slot_self] at hq
    exact ((slot_state.Pending.injEq _ _).mp hq).symm
  · rw [slot_set_slot_ne _ _ _ _ hqp] at hq
    exact hs q i hq

theorem slot_inv_set_idle (s : router_state) (p : port_id)
    (hs : slot_inv s) : slot_inv (s.set_slot p slot_state.Idle) := by
  intro q i hq
  by_cases hqp : q = p
  · subst hqp
    rw [slot_set_slot_self] at hq
    exact absurd hq (by simp)
  · rw [slot_set_slot_ne _ _ _ _ hqp] at hq
    exact hs q i hq

theorem slot_inv_app_on_rx (env : send_env) (s : router_state)
    (p : port_id) (d : List Nat) (hs : slot_inv s) :
    slot_inv (app_on_rx env s p d).state := by
  unfold app_on_rx
  split
  · exact hs
  · cases hsl : s.slot p with
    | Idle => simpa [hsl] using slot_inv_set_pending s p hs
    | Pending i => simpa [hsl] using hs

theorem slot_inv_app_on_response (env : send_env) (s : router_state)
    (p : port_id) (d : List Nat) (hs : slot_inv s) :
    slot_inv (app_on_response env s p d).state := by
  unfold app_on_response
  cases hsl : s.slot (other_port p) with
  | Idle => simpa [hsl] using hs
  | Pending i => simpa [hsl] using slot_inv_set_idle s (other_port p) hs

theorem slot_inv_router_step (env : send_env) (s : router_state)
    (e : router_event) (hs : slot_inv s) :
    slot_inv (router_step env s e) := by
  cases e with
  | rx p d => exact slot_inv_app_on_rx env s p d hs
  | response p d => exact slot_inv_app_on_response env s p d hs

theorem slot_inv_router_run (env : send_env) (evs : List router_event) :
    slot_inv (router_run env evs) := by
  have key : ∀ (l : List router_event) (s : router_state), slot_inv s →
      slot_inv (List.foldl (router_step env) s l) := by
    intro l
    induction l with
    | nil => intro s hs; exact hs
    | cons e rest ih =>
        intro s hs
        exact ih _ (slot_inv_router_step env s e hs)
  exact key evs init_state slot_inv_init

end DongleBridge

namespace DongleBridge

/- ------------------------------------------------------------------ -/
/- Claim theorems for the transaction router.                          -/
/- ------------------------------------------------------------------ -/

/-- Claim C1: for every payload of length between 1 and MSG_MAX_LEN
arriving via app_on_rx while the slot keyed by the originating port is
Idle, the router issues exactly one port_send, on the opposite port, with
a byte-for-byte identical payload, and the slot keyed by the originating
port transitions to Pending recording that port as initiator. -/
theorem app_on_rx_idle_forwards (env : send_env) (s : router_state)
    (fromP : port_id) (data : List Nat)
    (hpos : 0 < data.length) (hlen : data.length ≤ MSG_MAX_LEN)
    (hidle : s.slot fromP = slot_state.Idle) :
    (app_on_rx env s fromP data).sends = [(other_port fromP, data)]
    ∧ (app_on_rx env s fromP data).state.slot fromP
        = slot_state.Pending fromP := by
  unfold app_on_rx
  rw [if_neg (by omega), hidle]
  exact ⟨rfl, slot_set_slot_self s fromP _⟩

theorem app_on_rx_idle_forwards_witness :
    (app_on_rx (fun _ _ => none) init_state port_id.PORT_USB [1, 2]).sends
      = [(other_port port_id.PORT_USB, [1, 2])]
    ∧ (app_on_rx (fun _ _ => none) init_state port_id.PORT_USB [1, 2]).state.slot
        port_id.PORT_USB = slot_state.Pending port_id.PORT_USB :=
  app_on_rx_idle_forwards (fun _ _ => none) init_state port_id.PORT_USB
    [1, 2] (by decide) (by decide) (by decide)

/-- Claim C2: for every payload arriving via app_on_response in any state
reachable from initialization in which the slot keyed by the other port is
Pending, the router issues one port_send to the initiator recorded in that
slot with exactly that payload, and the slot transitions back to Idle. -/
theorem app_on_response_pending_delivers (env : send_env)
    (evs : List router_event) (fromP : port_id) (data : List Nat)
    (i : port_id)
    (hpend : (router_run env evs).slot (other_port fromP)
        = slot_state.Pending i) :
    (app_on_response env (router_run env evs) fromP data).sends = [(i, data)]
    ∧ (app_on_response env (router_run env evs) fromP data).state.slot
        (other_port fromP) = slot_state.Idle := by
  have hi : i = other_port fromP :=
    slot_inv_router_run env evs (other_port fromP) i hpend
  subst hi
  unfold app_on_response
  rw [hpend]
  exact ⟨rfl, slot_set_slot_self _ _ _⟩

theorem app_on_response_pending_delivers_witness :
    (app_on_response (fun _ _ => none)
        (router_run (fun _ _ => none) [router_event.rx port_id.PORT_USB [1]])
        port_id.PORT_BLE [7, 8]).sends = [(port_id.PORT_USB, [7, 8])]
    ∧ (app_on_response (fun _ _ => none)
        (router_run (fun _ _ => none) [router_event.rx port_id.PORT_USB [1]])
        port_id.PORT_BLE [7, 8]).state.slot (other_port port_id.PORT_BLE)
        = slot_state.Idle :=
  app_on_response_pending_delivers (fun _ _ => none)
    [router_event.rx port_id.PORT_USB [1]] port_id.PORT_BLE [7, 8]
    port_id.PORT_USB (by decide)

end DongleBridge

namespace DongleBridge

/- Shared branch-equation lemmas for the router entry points. -/

theorem rx_idle_eq (env : send_env) (s : router_state) (p : port_id)
    (data : List Nat) (hlen : data.length ≤ MSG_MAX_LEN)
    (hidle : s.slot p = slot_state.Idle) :
    app_on_rx env s p data =
      { state := s.set_slot p (slot_state.Pending p)
        sends := [(other_port p, data)]
        err := (env (other_port p) data).map app_error.SendError } := by
  unfold app_on_rx
  rw [if_neg (by omega), hidle]

theorem rx_pending_eq (env : send_env) (s : router_state) (p : port_id)
    (data : List Nat) (i : port_id) (hlen : data.length ≤ MSG_MAX_LEN)
    (hpend : s.slot p = slot_state.Pending i) :
    app_on_rx env s p data =
      { state := s
        sends := [(p, busy_payload)]
        err := (env p busy_payload).map app_error.SendError } := by
  unfold app_on_rx
  rw [if_neg (by omega), hpend]

theorem rx_oversize_eq (env : send_env) (s : router_state) (p : port_id)
    (data : List Nat) (hlen : MSG_MAX_LEN < data.length) :
    app_on_rx env s p data =
      { state := s, sends := [], err := some app_error.OversizeError } := by
  unfold app_on_rx
  rw [if_pos hlen]

theorem response_pending_eq (env : send_env) (s : router_state) (p : port_id)
    (data : List Nat) (i : port_id)
    (hpend : s.slot (other_port p) = slot_state.Pending i) :
    app_on_response env s p data =
      { state := s.set_slot (other_port p) slot_state.Idle
        sends := [(other_port p, data)]
        err := (env (other_port p) data).map app_error.SendError } := by
  unfold app_on_response
  rw [hpend]

theorem response_idle_eq (env : send_env) (s : router_state) (p : port_id)
    (data : List Nat) (hidle : s.slot (other_port p) = slot_state.Idle) :
    app_on_response env s p data = { state := s, sends := [], err := none } := by
  unfold app_on_response
  rw [hidle]

/-- Claim C3 counterexample: in a state whose slot keyed by PORT_USB is
Pending, a payload one byte over MSG_MAX_LEN arriving via app_on_rx at
PORT_USB produces no port_send at all — in particular no busy reply on the
originating port — because oversized input is rejected before the slot is
consulted (spec §7). -/
theorem app_on_rx_pending_busy_cex :
    ((⟨slot_state.Pending port_id.PORT_USB, slot_state.Idle⟩ : router_state).slot
        port_id.PORT_USB = slot_state.Pending port_id.PORT_USB)
    ∧ ((List.replicate (MSG_MAX_LEN + 1) 0).length = MSG_MAX_LEN + 1)
    ∧ ((app_on_rx (fun _ _ => none)
          ⟨slot_state.Pending port_id.PORT_USB, slot_state.Idle⟩
          port_id.PORT_USB (List.replicate (MSG_MAX_LEN + 1) 0)).sends = [])
    ∧ ((app_on_rx (fun _ _ => none)
          ⟨slot_state.Pending port_id.PORT_USB, slot_state.Idle⟩
          port_id.PORT_USB (List.replicate (MSG_MAX_LEN + 1) 0)).err
        = some app_error.OversizeError) := by
  refine ⟨rfl, by simp, ?_, ?_⟩
  · rw [rx_oversize_eq _ _ _ _ (by rw [List.length_replicate]; omega)]
  · rw [rx_oversize_eq _ _ _ _ (by rw [List.length_replicate]; omega)]

/-- Claim C3 (amended to payloads of valid length): for every payload of
length at most MSG_MAX_LEN arriving via app_on_rx while the slot keyed by
the originating port is Pending, the router does not send on the opposite
port; it issues exactly one port_send on the originating port itself with
the non-empty busy payload, and the slot table is unchanged, so the slot
stays Pending with its originally recorded initiator. -/
theorem app_on_rx_pending_busy (env : send_env) (s : router_state)
    (fromP : port_id) (data : List Nat) (i : port_id)
    (hlen : data.length ≤ MSG_MAX_LEN)
    (hpend : s.slot fromP = slot_state.Pending i) :
    (app_on_rx env s fromP data).sends = [(fromP, busy_payload)]
    ∧ busy_payload ≠ []
    ∧ other_port fromP ≠ fromP
    ∧ (app_on_rx env s fromP data).state = s := by
  rw [rx_pending_eq env s fromP data i hlen hpend]
  exact ⟨rfl, by decide, other_port_ne fromP, rfl⟩

theorem app_on_rx_pending_busy_witness :
    (app_on_rx (fun _ _ => none)
        ⟨slot_state.Pending port_id.PORT_USB, slot_state.Idle⟩
        port_id.PORT_USB [9]).sends = [(port_id.PORT_USB, busy_payload)]
    ∧ busy_payload ≠ []
    ∧ other_port port_id.PORT_USB ≠ port_id.PORT_USB
    ∧ (app_on_rx (fun _ _ => none)
        ⟨slot_state.Pending port_id.PORT_USB, slot_state.Idle⟩
        port_id.PORT_USB [9]).state
      = ⟨slot_state.Pending port_id.PORT_USB, slot_state.Idle⟩ :=
  app_on_rx_pending_busy (fun _ _ => none)
    ⟨slot_state.Pending port_id.PORT_USB, slot_state.Idle⟩
    port_id.PORT_USB [9] port_id.PORT_USB (by decide) rfl

end DongleBridge

namespace DongleBridge

/- Frame lemmas: each entry point touches at most one slot. -/

theorem app_on_rx_frame (env : send_env) (s : router_state) (p : port_id)
    (data : List Nat) (q : port_id) (h : q ≠ p) :
    (app_on_rx env s p data).state.slot q = s.slot q := by
  unfold app_on_rx
  split
  · rfl
  · cases hsl : s.slot p with
    | Idle => simp only [hsl]; exact slot_set_slot_ne s p q _ h
    | Pending i => simp only [hsl]

theorem app_on_response_frame (env : send_env) (s : router_state)
    (p : port_id) (data : List Nat) (q : port_id)
    (h : q ≠ other_port p) :
    (app_on_response env s p data).state.slot q = s.slot q := by
  unfold app_on_response
  cases hsl : s.slot (other_port p) with
  | Idle => simp only [hsl]
  | Pending i => simp only [hsl]; exact slot_set_slot_ne s _ q _ h

/-- Claim C4: app_on_rx at a port mutates at most the slot keyed by that
port, and app_on_response at a port mutates at most the slot keyed by the
other port; consequently a request on PORT_USB followed by a request on
PORT_BLE leaves both slots Pending, and each subsequent response resolves
only its own direction's slot, leaving the other slot unchanged. -/
theorem router_direction_independence (env : send_env) (d1 d2 : List Nat)
    (h1 : d1.length ≤ MSG_MAX_LEN) (h2 : d2.length ≤ MSG_MAX_LEN) :
    (∀ (s : router_state) (p q : port_id) (data : List Nat), q ≠ p →
        (app_on_rx env s p data).state.slot q = s.slot q)
    ∧ (∀ (s : router_state) (p q : port_id) (data : List Nat),
        q ≠ other_port p →
        (app_on_response env s p data).state.slot q = s.slot q)
    ∧ ((router_run env [router_event.rx port_id.PORT_USB d1,
          router_event.rx port_id.PORT_BLE d2]).slot port_id.PORT_USB
        = slot_state.Pending port_id.PORT_USB)
    ∧ ((router_run env [router_event.rx port_id.PORT_USB d1,
          router_event.rx port_id.PORT_BLE d2]).slot port_id.PORT_BLE
        = slot_state.Pending port_id.PORT_BLE)
    ∧ (∀ dr : List Nat,
        ((app_on_response env
            (router_run env [router_event.rx port_id.PORT_USB d1,
              router_event.rx port_id.PORT_BLE d2])
            port_id.PORT_BLE dr).state.slot port_id.PORT_USB
          = slot_state.Idle)
        ∧ ((app_on_response env
            (router_run env [router_event.rx port_id.PORT_USB d1,
              router_event.rx port_id.PORT_BLE d2])
            port_id.PORT_BLE dr).state.slot port_id.PORT_BLE
          = slot_state.Pending port_id.PORT_BLE))
    ∧ (∀ dr : List Nat,
        ((app_on_response env
            (router_run env [router_event.rx port_id.PORT_USB d1,
              router_event.rx port_id.PORT_BLE d2])
            port_id.PORT_USB dr).state.slot port_id.PORT_BLE
          = slot_state.Idle)
        ∧ ((app_on_response env
            (router_run env [router_event.rx port_id.PORT_USB d1,
              router_event.rx port_id.PORT_BLE d2])
            port_id.PORT_USB dr).state.slot port_id.PORT_USB
          = slot_state.Pending port_id.PORT_USB)) := by
  have hs1 : (app_on_rx env init_state port_id.PORT_USB d1).state
      = ⟨slot_state.Pending port_id.PORT_USB, slot_state.Idle⟩ := by
    rw [rx_idle_eq env init_state port_id.PORT_USB d1 h1 rfl]
    rfl
  have hrun : router_run env [router_event.rx port_id.PORT_USB d1,
      router_event.rx port_id.PORT_BLE d2]
      = ⟨slot_state.Pending port_id.PORT_USB,
         slot_state.Pending port_id.PORT_BLE⟩ := by
    show (app_on_rx env (app_on_rx env init_state port_id.PORT_USB d1).state
        port_id.PORT_BLE d2).state = _
    rw [hs1, rx_idle_eq env
      ⟨slot_state.Pending port_id.PORT_USB, slot_state.Idle⟩
      port_id.PORT_BLE d2 h2 rfl]
    rfl
  refine ⟨fun s p q data h => app_on_rx_frame env s p data q h,
    fun s p q data h => app_on_response_frame env s p data q h, ?_, ?_, ?_, ?_⟩
  · rw [hrun]; rfl
  · rw [hrun]; rfl
  · intro dr
    rw [hrun, response_pending_eq env
      ⟨slot_state.Pending port_id.PORT_USB, slot_state.Pending port_id.PORT_BLE⟩
      port_id.PORT_BLE dr port_id.PORT_USB rfl]
    exact ⟨rfl, rfl⟩
  · intro dr
    rw [hrun, response_pending_eq env
      ⟨slot_state.Pending port_id.PORT_USB, slot_state.Pending port_id.PORT_BLE⟩
      port_id.PORT_USB dr port_id.PORT_BLE rfl]
    exact ⟨rfl, rfl⟩

theorem router_direction_independence_witness :
    (∀ (s : router_state) (p q : port_id) (data : List Nat), q ≠ p →
        (app_on_rx (fun _ _ => none) s p data).state.slot q = s.slot q)
    ∧ (∀ (s : router_state) (p q : port_id) (data : List Nat),
        q ≠ other_port p →
        (app_on_response (fun _ _ => none) s p data).state.slot q = s.slot q)
    ∧ ((router_run (fun _ _ => none) [router_event.rx port_id.PORT_USB [1],
          router_event.rx port_id.PORT_BLE [2]]).slot port_id.PORT_USB
        = slot_state.Pending port_id.PORT_USB)
    ∧ ((router_run (fun _ _ => none) [router_event.rx port_id.PORT_USB [1],
          router_event.rx port_id.PORT_BLE [2]]).slot port_id.PORT_BLE
        = slot_state.Pending port_id.PORT_BLE)
    ∧ (∀ dr : List Nat,
        ((app_on_response (fun _ _ => none)
            (router_run (fun _ _ => none) [router_event.rx port_id.PORT_USB [1],
              router_event.rx port_id.PORT_BLE [2]])
            port_id.PORT_BLE dr).state.slot port_id.PORT_USB
          = slot_state.Idle)
        ∧ ((app_on_response (fun _ _ => none)
            (router_run (fun _ _ => none) [router_event.rx port_id.PORT_USB [1],
              router_event.rx port_id.PORT_BLE [2]])
            port_id.PORT_BLE dr).state.slot port_id.PORT_BLE
          = slot_state.Pending port_id.PORT_BLE))
    ∧ (∀ dr : List Nat,
        ((app_on_response (fun _ _ => none)
            (router_run (fun _ _ => none) [router_event.rx port_id.PORT_USB [1],
              router_event.rx port_id.PORT_BLE [2]])
            port_id.PORT_USB dr).state.slot port_id.PORT_BLE
          = slot_state.Idle)
        ∧ ((app_on_response (fun _ _ => none)
            (router_run (fun _ _ => none) [router_event.rx port_id.PORT_USB [1],
              router_event.rx port_id.PORT_BLE [2]])
            port_id.PORT_USB dr).state.slot port_id.PORT_USB
          = slot_state.Pending port_id.PORT_USB)) :=
  router_direction_independence (fun _ _ => none) [1] [2]
    (by decide) (by decide)

end DongleBridge

namespace DongleBridge

/-- Claim C5 counterexample: a payload of length exactly MSG_MAX_LEN
arriving via app_on_rx at a port whose slot is Pending is not accepted and
forwarded as a request — the router answers the originating port with the
busy payload instead of forwarding to the opposite port — so the claim's
first half does not hold for every call, only for calls finding the slot
Idle. -/
theorem app_on_rx_maxlen_cex :
    ((List.replicate MSG_MAX_LEN 0).length = MSG_MAX_LEN)
    ∧ ((⟨slot_state.Pending port_id.PORT_USB, slot_state.Idle⟩ : router_state).slot
        port_id.PORT_USB = slot_state.Pending port_id.PORT_USB)
    ∧ ((app_on_rx (fun _ _ => none)
          ⟨slot_state.Pending port_id.PORT_USB, slot_state.Idle⟩
          port_id.PORT_USB (List.replicate MSG_MAX_LEN 0)).sends
        = [(port_id.PORT_USB, busy_payload)]) := by
  refine ⟨List.length_replicate _ _, rfl, ?_⟩
  rw [rx_pending_eq (fun _ _ => none)
    ⟨slot_state.Pending port_id.PORT_USB, slot_state.Idle⟩
    port_id.PORT_USB (List.replicate MSG_MAX_LEN 0) port_id.PORT_USB
    (by rw [List.length_replicate]) rfl]

/-- Claim C5 (amended: acceptance at the boundary holds for calls that
find the slot keyed by the originating port Idle): a payload of length
exactly MSG_MAX_LEN from an Idle slot is accepted and forwarded as a
request, while for every call — whatever the slot states — with length
MSG_MAX_LEN + 1 or more, the call fails with OversizeError, no port_send
is issued, and neither direction's slot is mutated. -/
theorem app_on_rx_boundary (env : send_env) (s : router_state)
    (fromP : port_id) (data : List Nat) :
    (s.slot fromP = slot_state.Idle → data.length = MSG_MAX_LEN →
      ((app_on_rx env s fromP data).sends = [(other_port fromP, data)]
       ∧ (app_on_rx env s fromP data).state.slot fromP
           = slot_state.Pending fromP
       ∧ (app_on_rx env s fromP data).err ≠ some app_error.OversizeError))
    ∧ (MSG_MAX_LEN + 1 ≤ data.length →
      ((app_on_rx env s fromP data).err = some app_error.OversizeError
       ∧ (app_on_rx env s fromP data).sends = []
       ∧ (app_on_rx env s fromP data).state = s)) := by
  constructor
  · intro hidle hlen
    rw [rx_idle_eq env s fromP data (by omega) hidle]
    refine ⟨rfl, slot_set_slot_self s fromP _, ?_⟩
    cases env (other_port fromP) data <;> simp
  · intro hlen
    rw [rx_oversize_eq env s fromP data (by omega)]
    exact ⟨rfl, rfl, rfl⟩

theorem app_on_rx_boundary_witness :
    ((app_on_rx (fun _ _ => none) init_state port_id.PORT_USB
        (List.replicate MSG_MAX_LEN 0)).sends
      = [(other_port port_id.PORT_USB, List.replicate MSG_MAX_LEN 0)])
    ∧ ((app_on_rx (fun _ _ => none) init_state port_id.PORT_USB
        (List.replicate (MSG_MAX_LEN + 1) 0)).err
      = some app_error.OversizeError) :=
  ⟨((app_on_rx_boundary (fun _ _ => none) init_state port_id.PORT_USB
      (List.replicate MSG_MAX_LEN 0)).1 rfl
      (List.length_replicate _ _)).1,
   ((app_on_rx_boundary (fun _ _ => none) init_state port_id.PORT_USB
      (List.replicate (MSG_MAX_LEN + 1) 0)).2
      (by rw [List.length_replicate])).1⟩

/-- Claim C6: a response arriving while the slot keyed by the other port
is Idle is dropped — no port_send, no error, and the entire router state
unchanged; moreover after any app_on_response call that direction's slot
is Idle, so of two consecutive responses on the same port with no
intervening request the second is always dropped with no state change. -/
theorem app_on_response_idle_drops (env : send_env) (s : router_state)
    (fromP : port_id) (data d2 : List Nat)
    (hidle : s.slot (other_port fromP) = slot_state.Idle) :
    (app_on_response env s fromP data
      = { state := s, sends := [], err := none })
    ∧ (∀ (s0 : router_state) (d1 : List Nat),
        app_on_response env (app_on_response env s0 fromP d1).state fromP d2
          = { state := (app_on_response env s0 fromP d1).state
              sends := []
              err := none }) := by
  have hafter : ∀ (s0 : router_state) (d1 : List Nat),
      (app_on_response env s0 fromP d1).state.slot (other_port fromP)
        = slot_state.Idle := by
    intro s0 d1
    unfold app_on_response
    cases hsl : s0.slot (other_port fromP) with
    | Idle => simp only [hsl]
    | Pending i =>
        simp only [hsl]
        exact slot_set_slot_self s0 (other_port fromP) slot_state.Idle
  exact ⟨response_idle_eq env s fromP data hidle,
    fun s0 d1 => response_idle_eq env _ fromP d2 (hafter s0 d1)⟩

theorem app_on_response_idle_drops_witness :
    (app_on_response (fun _ _ => none) init_state port_id.PORT_BLE [3]
      = { state := init_state, sends := [], err := none })
    ∧ (∀ (s0 : router_state) (d1 : List Nat),
        app_on_response (fun _ _ => none)
          (app_on_response (fun _ _ => none) s0 port_id.PORT_BLE d1).state
          port_id.PORT_BLE [4]
          = { state := (app_on_response (fun _ _ => none) s0
                port_id.PORT_BLE d1).state
              sends := []
              err := none }) :=
  app_on_response_idle_drops (fun _ _ => none) init_state port_id.PORT_BLE
    [3] [4] rfl

/-- Claim C7: whenever an outbound transport send attempted during
app_on_rx — the request forward from an Idle slot or the busy reply from a
Pending slot — or during app_on_response (reply delivery) fails with
not-connected, transport-busy or invalid-length, that error is returned to
the caller of the triggering entry point, and the slot transition that
already occurred — to Pending for a request, back to Idle for a response,
or no transition for the busy reply — is not rolled back. -/
theorem send_error_propagates (env : send_env) (s : router_state)
    (fromP : port_id) (data : List Nat) (e : send_error) (i : port_id)
    (hlen : data.length ≤ MSG_MAX_LEN) :
    (s.slot fromP = slot_state.Idle →
      env (other_port fromP) data = some e →
      ((app_on_rx env s fromP data).err = some (app_error.SendError e)
       ∧ (app_on_rx env s fromP data).state.slot fromP
           = slot_state.Pending fromP))
    ∧ (s.slot fromP = slot_state.Pending i →
      env fromP busy_payload = some e →
      ((app_on_rx env s fromP data).err = some (app_error.SendError e)
       ∧ (app_on_rx env s fromP data).state = s))
    ∧ (s.slot (other_port fromP) = slot_state.Pending i →
      env (other_port fromP) data = some e →
      ((app_on_response env s fromP data).err = some (app_error.SendError e)
       ∧ (app_on_response env s fromP data).state.slot (other_port fromP)
           = slot_state.Idle)) := by
  refine ⟨?_, ?_, ?_⟩
  · intro hidle henv
    rw [rx_idle_eq env s fromP data hlen hidle]
    exact ⟨by rw [henv]; rfl, slot_set_slot_self s fromP _⟩
  · intro hpend henv
    rw [rx_pending_eq env s fromP data i hlen hpend]
    exact ⟨by rw [henv]; rfl, rfl⟩
  · intro hpend henv
    rw [response_pending_eq env s fromP data i hpend]
    exact ⟨by rw [henv]; rfl, slot_set_slot_self s (other_port fromP) _⟩

theorem send_error_propagates_witness :
    ((app_on_rx (fun _ _ => some send_error.transport_busy) init_state
        port_id.PORT_USB [1]).err
      = some (app_error.SendError send_error.transport_busy))
    ∧ ((app_on_rx (fun _ _ => some send_error.transport_busy)
        ⟨slot_state.Pending port_id.PORT_USB, slot_state.Idle⟩
        port_id.PORT_USB [9]).err
      = some (app_error.SendError send_error.transport_busy)
      ∧ (app_on_rx (fun _ _ => some send_error.transport_busy)
        ⟨slot_state.Pending port_id.PORT_USB, slot_state.Idle⟩
        port_id.PORT_USB [9]).state
      = ⟨slot_state.Pending port_id.PORT_USB, slot_state.Idle⟩)
    ∧ ((app_on_response (fun _ _ => some send_error.transport_busy)
        ⟨slot_state.Pending port_id.PORT_USB, slot_state.Idle⟩
        port_id.PORT_BLE [2]).err
      = some (app_error.SendError send_error.transport_busy)) :=
  ⟨((send_error_propagates (fun _ _ => some send_error.transport_busy)
      init_state port_id.PORT_USB [1] send_error.transport_busy
      port_id.PORT_USB (by decide)).1 rfl rfl).1,
   (send_error_propagates (fun _ _ => some send_error.transport_busy)
      ⟨slot_state.Pending port_id.PORT_USB, slot_state.Idle⟩
      port_id.PORT_USB [9] send_error.transport_busy
      port_id.PORT_USB (by decide)).2.1 rfl rfl,
   ((send_error_propagates (fun _ _ => some send_error.transport_busy)
      ⟨slot_state.Pending port_id.PORT_USB, slot_state.Idle⟩
      port_id.PORT_BLE [2] send_error.transport_busy
      port_id.PORT_USB (by decide)).2.2 rfl rfl).1⟩

end DongleBridge

namespace DongleBridge

/-- Claim C8: app_core_create returns NULL for every pair of link
arguments, including valid non-NULL links, and app_core_usb_rx,
app_core_ble_rx and app_core_tick perform no send on either link and leave
all state unchanged for every core pointer and payload. -/
theorem app_core_all_stubbed (u d : Option app_core_link)
    (p : Option app_core) (data : List Nat) :
    app_core_create u d = none
    ∧ app_core_usb_rx p data = (p, [])
    ∧ app_core_ble_rx p data = (p, [])
    ∧ app_core_tick p = (p, []) :=
  ⟨rfl, rfl, rfl, rfl⟩

theorem usb_mock_send_preserves_tx_clear (ctx : usb_mock_ctx)
    (data : Option (List Nat)) (len : Nat)
    (h : ctx.tx_in_progress = false) :
    (usb_mock_send ctx data len).2.tx_in_progress = false := by
  unfold usb_mock_send
  cases data with
  | none => exact h
  | some d => split_ifs <;> simp_all

theorem usb_mock_send_ne_busy (ctx : usb_mock_ctx)
    (data : Option (List Nat)) (len : Nat)
    (h : ctx.tx_in_progress = false) :
    (usb_mock_send ctx data len).1 ≠ -EBUSY := by
  unfold usb_mock_send
  cases data with
  | none =>
      show -EINVAL ≠ -EBUSY
      decide
  | some d =>
      split_ifs <;>
        first
          | (show -EINVAL ≠ -EBUSY; decide)
          | (show -ENODEV ≠ -EBUSY; decide)
          | (show -EMSGSIZE ≠ -EBUSY; decide)
          | (show (-5 : Int) ≠ -EBUSY; decide)
          | (show (0 : Int) ≠ -EBUSY; decide)
          | simp_all

/-- Claim C9: starting from a context with no transmission in progress —
the invariant across top-level calls, established at initialization —
usb_mock_send leaves tx_in_progress false on every path, so a subsequent
usb_mock_send never fails with -EBUSY, and usb_mock_is_ready returns true
whenever the interface is connected. -/
theorem usb_mock_send_clears_tx (ctx : usb_mock_ctx)
    (data : Option (List Nat)) (len : Nat)
    (h : ctx.tx_in_progress = false) :
    ((usb_mock_send ctx data len).2.tx_in_progress = false)
    ∧ (∀ (d2 : Option (List Nat)) (l2 : Nat),
        (usb_mock_send (usb_mock_send ctx data len).2 d2 l2).1 ≠ -EBUSY)
    ∧ ((usb_mock_send ctx data len).2.connected = true →
        usb_mock_is_ready (usb_mock_send ctx data len).2 = true) := by
  have h2 : (usb_mock_send ctx data len).2.tx_in_progress = false :=
    usb_mock_send_preserves_tx_clear ctx data len h
  refine ⟨h2, fun d2 l2 => usb_mock_send_ne_busy _ d2 l2 h2, fun hc => ?_⟩
  unfold usb_mock_is_ready
  rw [hc, h2]
  rfl

theorem usb_mock_send_clears_tx_witness :
    ((usb_mock_send ⟨false, false, true, false, false, [], 0, false,
        ⟨0, 0, 0, 0, 0⟩⟩ (some [1]) 1).2.tx_in_progress = false)
    ∧ (∀ (d2 : Option (List Nat)) (l2 : Nat),
        (usb_mock_send (usb_mock_send ⟨false, false, true, false, false,
          [], 0, false, ⟨0, 0, 0, 0, 0⟩⟩ (some [1]) 1).2 d2 l2).1 ≠ -EBUSY)
    ∧ ((usb_mock_send ⟨false, false, true, false, false, [], 0, false,
        ⟨0, 0, 0, 0, 0⟩⟩ (some [1]) 1).2.connected = true →
        usb_mock_is_ready (usb_mock_send ⟨false, false, true, false, false,
          [], 0, false, ⟨0, 0, 0, 0, 0⟩⟩ (some [1]) 1).2 = true) :=
  usb_mock_send_clears_tx ⟨false, false, true, false, false, [], 0, false,
    ⟨0, 0, 0, 0, 0⟩⟩ (some [1]) 1 rfl

/-- Claim C10: usb_mock_send with a NULL data pointer or a zero length
returns -EINVAL and mutates nothing: the context — tx buffer,
tx_in_progress and statistics included — is returned unchanged. -/
theorem usb_mock_send_rejects_null_or_empty (ctx : usb_mock_ctx)
    (data : Option (List Nat)) (len : Nat)
    (h : data = none ∨ len = 0) :
    usb_mock_send ctx data len = (-EINVAL, ctx) := by
  rcases h with h | h
  · subst h
    rfl
  · subst h
    cases data with
    | none => rfl
    | some d => rfl

theorem usb_mock_send_rejects_null_or_empty_witness :
    usb_mock_send ⟨false, false, true, false, false, [], 0, false,
      ⟨0, 0, 0, 0, 0⟩⟩ none 5
    = (-EINVAL, ⟨false, false, true, false, false, [], 0, false,
      ⟨0, 0, 0, 0, 0⟩⟩) :=
  usb_mock_send_rejects_null_or_empty ⟨false, false, true, false, false,
    [], 0, false, ⟨0, 0, 0, 0, 0⟩⟩ none 5 (Or.inl rfl)

end DongleBridge
